import Mathlib

/-!
Shallow embedding of the statistics aggregation engine of
`chess_analysis.py` (class `ChessAnalizadorPro`).  The engine is the
method `analizar_partidas`: a single pass over a list of game records
that builds a mutable `stats` dictionary.  We model the dictionary as a
`Stats` structure and the pass as a left fold of `procesar` (the body of
the `for game in self.partidas` loop) over the game list.

Python `Counter` / `defaultdict` values are modelled as insertion-ordered
association lists, matching Python dict semantics: a missing key is
appended at the end with its default, an existing key is updated in
place.  The PGN parser (`chess.pgn.read_game`) is an external library and
is modelled as an oracle attached to each game record: it can raise
(`PgnParse.err`, the `except` branch), return `None` (`PgnParse.nogame`),
or return a game whose mainline is a list of move strings
(`PgnParse.ok`).
-/

/-- Python `Counter[k] += 1` / `defaultdict(int)[k] += 1` on an
insertion-ordered association list. -/
def alIncr : List (String × Nat) → String → List (String × Nat)
  | [], k => [(k, 1)]
  | (a, n) :: t, k => if a = k then (a, n + 1) :: t else (a, n) :: alIncr t k

/-- Lookup with default 0, as a `Counter` read. -/
def alGet : List (String × Nat) → String → Nat
  | [], _ => 0
  | (a, n) :: t, k => if a = k then n else alGet t k

/-- `aperturas_con_resultados[k]` update: `defaultdict(lambda: {'ganadas': 0,
'total': 0})`; when `w` the `'ganadas'` slot is also incremented (lines
146-148 of the source). -/
def acrIncr : List (String × Nat × Nat) → String → Bool → List (String × Nat × Nat)
  | [], k, w => [(k, (if w then 1 else 0), 1)]
  | (a, g, t) :: rest, k, w =>
    if a = k then (a, g + (if w then 1 else 0), t + 1) :: rest
    else (a, g, t) :: acrIncr rest k w

/-- Lookup in `aperturas_con_resultados` with default `(0, 0)`. -/
def acrGet : List (String × Nat × Nat) → String → Nat × Nat
  | [], _ => (0, 0)
  | (a, g, t) :: rest, k => if a = k then (g, t) else acrGet rest k

/-- `resultados_dia[dia][key] += 1` on `defaultdict(Counter)`. -/
def rdIncr : List (String × List (String × Nat)) → String → String →
    List (String × List (String × Nat))
  | [], d, k => [(d, [(k, 1)])]
  | (a, c) :: rest, d, k =>
    if a = d then (a, alIncr c k) :: rest else (a, c) :: rdIncr rest d k

/-- Python `str.lower()` (ASCII case folding, which is what usernames use). -/
def pyLower (s : String) : String := String.mk (s.data.map Char.toLower)

/-- `datetime.datetime.fromtimestamp(t).strftime("%A")`, fixed to the UTC
calendar: day 0 of the Unix epoch was a Thursday. -/
def diaSemana (t : Nat) : String :=
  (["Thursday", "Friday", "Saturday", "Sunday", "Monday", "Tuesday", "Wednesday"]).getD
    (t / 86400 % 7) ""

/-- `resultado in ("checkmated", "resigned", "timeout", "lose")`. -/
def esDerrota (r : String) : Bool :=
  r = "checkmated" || r = "resigned" || r = "timeout" || r = "lose"

/-- The guard `if filtro_tc and tc != filtro_tc: continue`.  Note Python
truthiness: a `None` or empty-string filter never skips. -/
def tcSkip (filtro : Option String) (tc : String) : Bool :=
  match filtro with
  | none => false
  | some f => f ≠ "" && tc ≠ f

/-- Outcome of `chess.pgn.read_game` on a game's transcript, supplied as
data since the parser is an external black box. -/
inductive PgnParse where
  | err
  | nogame
  | ok (moves : List String)

/-- One side of a game record: `{username, rating (via .get, default 0),
result}`. -/
structure Player where
  username : String
  rating : Option Nat
  result : String

/-- A game record as consumed by the engine. -/
structure Game where
  time_control : Option String
  white : Player
  black : Player
  pgn : Option String
  parse : PgnParse
  end_time : Option Nat

/-- `game.get("time_control", "N/A")`. -/
def tcLabel (g : Game) : String := g.time_control.getD "N/A"

/-- The `self.stats` dictionary initialised at lines 61-80. -/
structure Stats where
  ganadas : Nat
  perdidas : Nat
  tablas : Nat
  blancas_g : Nat
  blancas_partidas : Nat
  negras_g : Nat
  negras_partidas : Nat
  total_jugadas : Nat
  rivales : List String
  ratings_rivales : List Nat
  time_controls : List (String × Nat)
  tablas_por_tipo : List (String × Nat)
  racha_actual : Int
  racha_max_g : Int
  racha_max_p : Int
  partida_corta : String × Nat
  partida_larga : String × Nat
  mejor_victoria : String × Nat
  peor_derrota : String × Nat
  aperturas : List (String × Nat)
  aperturas_con_resultados : List (String × Nat × Nat)
  partidas_analizadas : Nat
  juegos_por_dia : List (String × Nat)
  resultados_dia : List (String × List (String × Nat))

def initStats : Stats where
  ganadas := 0
  perdidas := 0
  tablas := 0
  blancas_g := 0
  blancas_partidas := 0
  negras_g := 0
  negras_partidas := 0
  total_jugadas := 0
  rivales := []
  ratings_rivales := []
  time_controls := []
  tablas_por_tipo := []
  racha_actual := 0
  racha_max_g := 0
  racha_max_p := 0
  partida_corta := ("", 9999)
  partida_larga := ("", 0)
  mejor_victoria := ("", 0)
  peor_derrota := ("", 9999)
  aperturas := []
  aperturas_con_resultados := []
  partidas_analizadas := 0
  juegos_por_dia := []
  resultados_dia := []

/-- `game["white"]["username"].lower() == self.user` (the stored user is
already lowercased by `__init__`). -/
def userIsWhite (user : String) (g : Game) : Bool := pyLower g.white.username = user

/-- The `rival` chosen at lines 92 / 97. -/
def rivalDe (user : String) (g : Game) : String :=
  if userIsWhite user g then pyLower g.black.username else pyLower g.white.username

/-- The `rating_rival` chosen at lines 93 / 98. -/
def ratingRival (user : String) (g : Game) : Nat :=
  if userIsWhite user g then g.black.rating.getD 0 else g.white.rating.getD 0

/-- The `resultado` chosen at lines 94 / 99. -/
def resultadoDe (user : String) (g : Game) : String :=
  if userIsWhite user g then g.white.result else g.black.result

/-- Lines 108-127: outcome classification and its updates. -/
def outcomeUpdate (s : Stats) (uw : Bool) (rival : String) (rating : Nat)
    (resultado : String) : Stats :=
  if resultado = "win" then
    let a1 := {s with ganadas := s.ganadas + 1,
                      racha_actual := if s.racha_actual ≥ 0 then s.racha_actual + 1 else 1}
    let a2 := {a1 with racha_max_g := max a1.racha_max_g a1.racha_actual}
    let a3 := if uw then {a2 with blancas_g := a2.blancas_g + 1}
              else {a2 with negras_g := a2.negras_g + 1}
    if rating > a3.mejor_victoria.2 then {a3 with mejor_victoria := (rival, rating)} else a3
  else if esDerrota resultado then
    let a1 := {s with perdidas := s.perdidas + 1,
                      racha_actual := if s.racha_actual ≤ 0 then s.racha_actual - 1 else -1}
    let a2 := {a1 with racha_max_p := min a1.racha_max_p a1.racha_actual}
    if rating < a2.peor_derrota.2 then {a2 with peor_derrota := (rival, rating)} else a2
  else
    {s with tablas := s.tablas + 1,
            tablas_por_tipo := alIncr s.tablas_por_tipo resultado,
            racha_actual := 0}

/-- The opening key of line 143: first at most 4 mainline moves,
space-joined. -/
def aperturaKey (moves : List String) : String :=
  String.intercalate " " (moves.take 4)

/-- Lines 135-148: move-derived updates for a successfully parsed game. -/
def moveUpdate (s : Stats) (raw : String) (moves : List String) (resultado : String) : Stats :=
  let jugadas := moves.length
  let b1 := {s with total_jugadas := s.total_jugadas + jugadas}
  let b2 := if jugadas < b1.partida_corta.2 then {b1 with partida_corta := (raw, jugadas)} else b1
  let b3 := if jugadas > b2.partida_larga.2 then {b2 with partida_larga := (raw, jugadas)} else b2
  let key := aperturaKey moves
  if key ≠ "" then
    {b3 with aperturas := alIncr b3.aperturas key,
             aperturas_con_resultados :=
               acrIncr b3.aperturas_con_resultados key (resultado = "win")}
  else b3

/-- Lines 154-164: time-control counter and weekday bookkeeping. -/
def tailUpdate (s : Stats) (tc : String) (end_time : Option Nat) (resultado : String) : Stats :=
  let c1 := {s with time_controls := alIncr s.time_controls tc}
  let dia := diaSemana (end_time.getD 0)
  let c2 := {c1 with juegos_por_dia := alIncr c1.juegos_por_dia dia}
  let key := if resultado = "win" then "ganadas"
             else if esDerrota resultado then "perdidas" else "tablas"
  {c2 with resultados_dia := rdIncr c2.resultados_dia dia key}

/-- The body of the `for game in self.partidas` loop (lines 82-164).
`PgnParse.err` models the `except` branch whose `continue` abandons the
rest of the iteration, so the tail bookkeeping of lines 154-164 is
reached only when the transcript is absent, parses to `None`, or parses
to a game. -/
def procesar (user : String) (filtro : Option String) (minR : Nat)
    (s : Stats) (g : Game) : Stats :=
  let tc := tcLabel g
  if tcSkip filtro tc then s else
  let s1 := if userIsWhite user g then {s with blancas_partidas := s.blancas_partidas + 1}
            else {s with negras_partidas := s.negras_partidas + 1}
  let rival := rivalDe user g
  let rating := ratingRival user g
  let resultado := resultadoDe user g
  if rating < minR then s1 else
  let s2 := {s1 with rivales := s1.rivales ++ [rival],
                     ratings_rivales := s1.ratings_rivales ++ [rating],
                     partidas_analizadas := s1.partidas_analizadas + 1}
  let s3 := outcomeUpdate s2 (userIsWhite user g) rival rating resultado
  match g.pgn with
  | none => tailUpdate s3 tc g.end_time resultado
  | some raw =>
    match g.parse with
    | PgnParse.err => s3
    | PgnParse.nogame => tailUpdate s3 tc g.end_time resultado
    | PgnParse.ok moves => tailUpdate (moveUpdate s3 raw moves resultado) tc g.end_time resultado

/-- The aggregation pass over a non-empty game list. -/
def runAnalisis (user : String) (filtro : Option String) (minR : Nat)
    (partidas : List Game) : Stats :=
  partidas.foldl (procesar user filtro minR) initStats

/-- `analizar_partidas` including the early return at lines 55-57: when
there are no games the method returns at once and `self.stats` keeps its
previous value (`{}`, i.e. `none`, on a fresh instance). -/
def analizarPartidas (user : String) (filtro : Option String) (minR : Nat)
    (partidas : List Game) (prev : Option Stats) : Option Stats :=
  if partidas.isEmpty then prev
  else some (runAnalisis user filtro minR partidas)

/-- The guard of `generar_reporte` (lines 172-175): `if not s or
s["partidas_analizadas"] == 0: return` — a report (and hence any derived
rate) is produced only past this guard. -/
def reporteDisponible (s : Option Stats) : Bool :=
  match s with
  | none => false
  | some st => st.partidas_analizadas ≠ 0

/-- Global win rate of line 188: `ganadas * 100 // partidas_analizadas`
guarded by `partidas_analizadas > 0`. -/
def winrateGlobal (s : Stats) : Nat :=
  if s.partidas_analizadas > 0 then s.ganadas * 100 / s.partidas_analizadas else 0

/-- The values taken by `racha_actual` after each iteration of the loop,
starting from state `s`. -/
def rachaList (user : String) (filtro : Option String) (minR : Nat) :
    List Game → Stats → List Int
  | [], _ => []
  | g :: gs, s =>
    let s' := procesar user filtro minR s g
    s'.racha_actual :: rachaList user filtro minR gs s'

/-- Game 1 of the end-to-end scenario: user (white) beats rival1 (1500)
in 20 half-moves at time control "600". -/
def c5g1 : Game where
  time_control := some "600"
  white := { username := "user", rating := some 1450, result := "win" }
  black := { username := "rival1", rating := some 1500, result := "resigned" }
  pgn := some "PGN1"
  parse := PgnParse.ok (List.replicate 20 "e4")
  end_time := some 0

/-- Game 2 of the end-to-end scenario: user (black) loses to rival2
(1600) in 30 half-moves at time control "600". -/
def c5g2 : Game where
  time_control := some "600"
  white := { username := "rival2", rating := some 1600, result := "win" }
  black := { username := "user", rating := some 1450, result := "resigned" }
  pgn := some "PGN2"
  parse := PgnParse.ok (List.replicate 30 "d4")
  end_time := some 0

/-- Game 3 of the end-to-end scenario: user (white) draws rival3 (1400)
by "agreed" in 40 half-moves at time control "180". -/
def c5g3 : Game where
  time_control := some "180"
  white := { username := "user", rating := some 1450, result := "agreed" }
  black := { username := "rival3", rating := some 1400, result := "agreed" }
  pgn := some "PGN3"
  parse := PgnParse.ok (List.replicate 40 "c4")
  end_time := some 0

/-- A game passing both filters whose transcript raises in
`chess.pgn.read_game` (the `except` branch). -/
def gErr : Game where
  time_control := some "600"
  white := { username := "user", rating := some 1450, result := "win" }
  black := { username := "rival", rating := some 1500, result := "resigned" }
  pgn := some "1. e4 ??"
  parse := PgnParse.err
  end_time := some 0

/-- A game whose transcript makes `chess.pgn.read_game` return `None`. -/
def gNog : Game where
  time_control := some "600"
  white := { username := "user", rating := some 1450, result := "win" }
  black := { username := "rival", rating := some 1500, result := "resigned" }
  pgn := some ""
  parse := PgnParse.nogame
  end_time := some 0

/-- First of two parsed games with an equal half-move count of zero. -/
def gCero1 : Game where
  time_control := some "600"
  white := { username := "user", rating := some 1000, result := "win" }
  black := { username := "r1", rating := some 1200, result := "resigned" }
  pgn := some "A"
  parse := PgnParse.ok []
  end_time := some 0

/-- Second of two parsed games with an equal half-move count of zero. -/
def gCero2 : Game where
  time_control := some "600"
  white := { username := "user", rating := some 1000, result := "win" }
  black := { username := "r2", rating := some 1200, result := "resigned" }
  pgn := some "B"
  parse := PgnParse.ok []
  end_time := some 0

/-- A game in which the tracked user "user" is neither white nor black. -/
def gTer : Game where
  time_control := some "600"
  white := { username := "Alice", rating := some 1000, result := "win" }
  black := { username := "Bob", rating := some 1100, result := "checkmated" }
  pgn := none
  parse := PgnParse.nogame
  end_time := some 0

/-- A second parsed 20-half-move game, used to witness the tie-break on a
positive shared length. -/
def gTie2 : Game where
  time_control := some "600"
  white := { username := "user", rating := some 1450, result := "win" }
  black := { username := "rival1b", rating := some 1510, result := "resigned" }
  pgn := some "PGN1b"
  parse := PgnParse.ok (List.replicate 20 "f4")
  end_time := some 0

@[simp] theorem outcome_partidas_analizadas (s : Stats) (uw : Bool) (r : String) (rt : Nat) (res : String) :
    (outcomeUpdate s uw r rt res).partidas_analizadas = s.partidas_analizadas := by
  unfold outcomeUpdate; dsimp only; try split_ifs; all_goals rfl

@[simp] theorem outcome_rivales (s : Stats) (uw : Bool) (r : String) (rt : Nat) (res : String) :
    (outcomeUpdate s uw r rt res).rivales = s.rivales := by
  unfold outcomeUpdate; dsimp only; try split_ifs; all_goals rfl

@[simp] theorem outcome_ratings_rivales (s : Stats) (uw : Bool) (r : String) (rt : Nat) (res : String) :
    (outcomeUpdate s uw r rt res).ratings_rivales = s.ratings_rivales := by
  unfold outcomeUpdate; dsimp only; try split_ifs; all_goals rfl

@[simp] theorem outcome_blancas_partidas (s : Stats) (uw : Bool) (r : String) (rt : Nat) (res : String) :
    (outcomeUpdate s uw r rt res).blancas_partidas = s.blancas_partidas := by
  unfold outcomeUpdate; dsimp only; try split_ifs; all_goals rfl

@[simp] theorem outcome_negras_partidas (s : Stats) (uw : Bool) (r : String) (rt : Nat) (res : String) :
    (outcomeUpdate s uw r rt res).negras_partidas = s.negras_partidas := by
  unfold outcomeUpdate; dsimp only; try split_ifs; all_goals rfl

@[simp] theorem outcome_time_controls (s : Stats) (uw : Bool) (r : String) (rt : Nat) (res : String) :
    (outcomeUpdate s uw r rt res).time_controls = s.time_controls := by
  unfold outcomeUpdate; dsimp only; try split_ifs; all_goals rfl

@[simp] theorem outcome_juegos_por_dia (s : Stats) (uw : Bool) (r : String) (rt : Nat) (res : String) :
    (outcomeUpdate s uw r rt res).juegos_por_dia = s.juegos_por_dia := by
  unfold outcomeUpdate; dsimp only; try split_ifs; all_goals rfl

@[simp] theorem outcome_resultados_dia (s : Stats) (uw : Bool) (r : String) (rt : Nat) (res : String) :
    (outcomeUpdate s uw r rt res).resultados_dia = s.resultados_dia := by
  unfold outcomeUpdate; dsimp only; try split_ifs; all_goals rfl

@[simp] theorem outcome_total_jugadas (s : Stats) (uw : Bool) (r : String) (rt : Nat) (res : String) :
    (outcomeUpdate s uw r rt res).total_jugadas = s.total_jugadas := by
  unfold outcomeUpdate; dsimp only; try split_ifs; all_goals rfl

@[simp] theorem outcome_partida_corta (s : Stats) (uw : Bool) (r : String) (rt : Nat) (res : String) :
    (outcomeUpdate s uw r rt res).partida_corta = s.partida_corta := by
  unfold outcomeUpdate; dsimp only; try split_ifs; all_goals rfl

@[simp] theorem outcome_partida_larga (s : Stats) (uw : Bool) (r : String) (rt : Nat) (res : String) :
    (outcomeUpdate s uw r rt res).partida_larga = s.partida_larga := by
  unfold outcomeUpdate; dsimp only; try split_ifs; all_goals rfl

@[simp] theorem outcome_aperturas (s : Stats) (uw : Bool) (r : String) (rt : Nat) (res : String) :
    (outcomeUpdate s uw r rt res).aperturas = s.aperturas := by
  unfold outcomeUpdate; dsimp only; try split_ifs; all_goals rfl

@[simp] theorem outcome_aperturas_con_resultados (s : Stats) (uw : Bool) (r : String) (rt : Nat) (res : String) :
    (outcomeUpdate s uw r rt res).aperturas_con_resultados = s.aperturas_con_resultados := by
  unfold outcomeUpdate; dsimp only; try split_ifs; all_goals rfl

@[simp] theorem move_ganadas (s : Stats) (raw : String) (moves : List String) (res : String) :
    (moveUpdate s raw moves res).ganadas = s.ganadas := by
  unfold moveUpdate; dsimp only; try split_ifs; all_goals rfl

@[simp] theorem move_perdidas (s : Stats) (raw : String) (moves : List String) (res : String) :
    (moveUpdate s raw moves res).perdidas = s.perdidas := by
  unfold moveUpdate; dsimp only; try split_ifs; all_goals rfl

@[simp] theorem move_tablas (s : Stats) (raw : String) (moves : List String) (res : String) :
    (moveUpdate s raw moves res).tablas = s.tablas := by
  unfold moveUpdate; dsimp only; try split_ifs; all_goals rfl

@[simp] theorem move_blancas_g (s : Stats) (raw : String) (moves : List String) (res : String) :
    (moveUpdate s raw moves res).blancas_g = s.blancas_g := by
  unfold moveUpdate; dsimp only; try split_ifs; all_goals rfl

@[simp] theorem move_blancas_partidas (s : Stats) (raw : String) (moves : List String) (res : String) :
    (moveUpdate s raw moves res).blancas_partidas = s.blancas_partidas := by
  unfold moveUpdate; dsimp only; try split_ifs; all_goals rfl

@[simp] theorem move_negras_g (s : Stats) (raw : String) (moves : List String) (res : String) :
    (moveUpdate s raw moves res).negras_g = s.negras_g := by
  unfold moveUpdate; dsimp only; try split_ifs; all_goals rfl

@[simp] theorem move_negras_partidas (s : Stats) (raw : String) (moves : List String) (res : String) :
    (moveUpdate s raw moves res).negras_partidas = s.negras_partidas := by
  unfold moveUpdate; dsimp only; try split_ifs; all_goals rfl

@[simp] theorem move_rivales (s : Stats) (raw : String) (moves : List String) (res : String) :
    (moveUpdate s raw moves res).rivales = s.rivales := by
  unfold moveUpdate; dsimp only; try split_ifs; all_goals rfl

@[simp] theorem move_ratings_rivales (s : Stats) (raw : String) (moves : List String) (res : String) :
    (moveUpdate s raw moves res).ratings_rivales = s.ratings_rivales := by
  unfold moveUpdate; dsimp only; try split_ifs; all_goals rfl

@[simp] theorem move_time_controls (s : Stats) (raw : String) (moves : List String) (res : String) :
    (moveUpdate s raw moves res).time_controls = s.time_controls := by
  unfold moveUpdate; dsimp only; try split_ifs; all_goals rfl

@[simp] theorem move_tablas_por_tipo (s : Stats) (raw : String) (moves : List String) (res : String) :
    (moveUpdate s raw moves res).tablas_por_tipo = s.tablas_por_tipo := by
  unfold moveUpdate; dsimp only; try split_ifs; all_goals rfl

@[simp] theorem move_racha_actual (s : Stats) (raw : String) (moves : List String) (res : String) :
    (moveUpdate s raw moves res).racha_actual = s.racha_actual := by
  unfold moveUpdate; dsimp only; try split_ifs; all_goals rfl

@[simp] theorem move_racha_max_g (s : Stats) (raw : String) (moves : List String) (res : String) :
    (moveUpdate s raw moves res).racha_max_g = s.racha_max_g := by
  unfold moveUpdate; dsimp only; try split_ifs; all_goals rfl

@[simp] theorem move_racha_max_p (s : Stats) (raw : String) (moves : List String) (res : String) :
    (moveUpdate s raw moves res).racha_max_p = s.racha_max_p := by
  unfold moveUpdate; dsimp only; try split_ifs; all_goals rfl

@[simp] theorem move_mejor_victoria (s : Stats) (raw : String) (moves : List String) (res : String) :
    (moveUpdate s raw moves res).mejor_victoria = s.mejor_victoria := by
  unfold moveUpdate; dsimp only; try split_ifs; all_goals rfl

@[simp] theorem move_peor_derrota (s : Stats) (raw : String) (moves : List String) (res : String) :
    (moveUpdate s raw moves res).peor_derrota = s.peor_derrota := by
  unfold moveUpdate; dsimp only; try split_ifs; all_goals rfl

@[simp] theorem move_partidas_analizadas (s : Stats) (raw : String) (moves : List String) (res : String) :
    (moveUpdate s raw moves res).partidas_analizadas = s.partidas_analizadas := by
  unfold moveUpdate; dsimp only; try split_ifs; all_goals rfl

@[simp] theorem move_juegos_por_dia (s : Stats) (raw : String) (moves : List String) (res : String) :
    (moveUpdate s raw moves res).juegos_por_dia = s.juegos_por_dia := by
  unfold moveUpdate; dsimp only; try split_ifs; all_goals rfl

@[simp] theorem move_resultados_dia (s : Stats) (raw : String) (moves : List String) (res : String) :
    (moveUpdate s raw moves res).resultados_dia = s.resultados_dia := by
  unfold moveUpdate; dsimp only; try split_ifs; all_goals rfl

@[simp] theorem tail_ganadas (s : Stats) (tc : String) (et : Option Nat) (res : String) :
    (tailUpdate s tc et res).ganadas = s.ganadas := by
  unfold tailUpdate; dsimp only

@[simp] theorem tail_perdidas (s : Stats) (tc : String) (et : Option Nat) (res : String) :
    (tailUpdate s tc et res).perdidas = s.perdidas := by
  unfold tailUpdate; dsimp only

@[simp] theorem tail_tablas (s : Stats) (tc : String) (et : Option Nat) (res : String) :
    (tailUpdate s tc et res).tablas = s.tablas := by
  unfold tailUpdate; dsimp only

@[simp] theorem tail_blancas_g (s : Stats) (tc : String) (et : Option Nat) (res : String) :
    (tailUpdate s tc et res).blancas_g = s.blancas_g := by
  unfold tailUpdate; dsimp only

@[simp] theorem tail_blancas_partidas (s : Stats) (tc : String) (et : Option Nat) (res : String) :
    (tailUpdate s tc et res).blancas_partidas = s.blancas_partidas := by
  unfold tailUpdate; dsimp only

@[simp] theorem tail_negras_g (s : Stats) (tc : String) (et : Option Nat) (res : String) :
    (tailUpdate s tc et res).negras_g = s.negras_g := by
  unfold tailUpdate; dsimp only

@[simp] theorem tail_negras_partidas (s : Stats) (tc : String) (et : Option Nat) (res : String) :
    (tailUpdate s tc et res).negras_partidas = s.negras_partidas := by
  unfold tailUpdate; dsimp only

@[simp] theorem tail_total_jugadas (s : Stats) (tc : String) (et : Option Nat) (res : String) :
    (tailUpdate s tc et res).total_jugadas = s.total_jugadas := by
  unfold tailUpdate; dsimp only

@[simp] theorem tail_rivales (s : Stats) (tc : String) (et : Option Nat) (res : String) :
    (tailUpdate s tc et res).rivales = s.rivales := by
  unfold tailUpdate; dsimp only

@[simp] theorem tail_ratings_rivales (s : Stats) (tc : String) (et : Option Nat) (res : String) :
    (tailUpdate s tc et res).ratings_rivales = s.ratings_rivales := by
  unfold tailUpdate; dsimp only

@[simp] theorem tail_tablas_por_tipo (s : Stats) (tc : String) (et : Option Nat) (res : String) :
    (tailUpdate s tc et res).tablas_por_tipo = s.tablas_por_tipo := by
  unfold tailUpdate; dsimp only

@[simp] theorem tail_racha_actual (s : Stats) (tc : String) (et : Option Nat) (res : String) :
    (tailUpdate s tc et res).racha_actual = s.racha_actual := by
  unfold tailUpdate; dsimp only

@[simp] theorem tail_racha_max_g (s : Stats) (tc : String) (et : Option Nat) (res : String) :
    (tailUpdate s tc et res).racha_max_g = s.racha_max_g := by
  unfold tailUpdate; dsimp only

@[simp] theorem tail_racha_max_p (s : Stats) (tc : String) (et : Option Nat) (res : String) :
    (tailUpdate s tc et res).racha_max_p = s.racha_max_p := by
  unfold tailUpdate; dsimp only

@[simp] theorem tail_partida_corta (s : Stats) (tc : String) (et : Option Nat) (res : String) :
    (tailUpdate s tc et res).partida_corta = s.partida_corta := by
  unfold tailUpdate; dsimp only

@[simp] theorem tail_partida_larga (s : Stats) (tc : String) (et : Option Nat) (res : String) :
    (tailUpdate s tc et res).partida_larga = s.partida_larga := by
  unfold tailUpdate; dsimp only

@[simp] theorem tail_mejor_victoria (s : Stats) (tc : String) (et : Option Nat) (res : String) :
    (tailUpdate s tc et res).mejor_victoria = s.mejor_victoria := by
  unfold tailUpdate; dsimp only

@[simp] theorem tail_peor_derrota (s : Stats) (tc : String) (et : Option Nat) (res : String) :
    (tailUpdate s tc et res).peor_derrota = s.peor_derrota := by
  unfold tailUpdate; dsimp only

@[simp] theorem tail_aperturas (s : Stats) (tc : String) (et : Option Nat) (res : String) :
    (tailUpdate s tc et res).aperturas = s.aperturas := by
  unfold tailUpdate; dsimp only

@[simp] theorem tail_aperturas_con_resultados (s : Stats) (tc : String) (et : Option Nat) (res : String) :
    (tailUpdate s tc et res).aperturas_con_resultados = s.aperturas_con_resultados := by
  unfold tailUpdate; dsimp only

@[simp] theorem tail_partidas_analizadas (s : Stats) (tc : String) (et : Option Nat) (res : String) :
    (tailUpdate s tc et res).partidas_analizadas = s.partidas_analizadas := by
  unfold tailUpdate; dsimp only

@[simp] theorem outcome_ganadas (s : Stats) (uw : Bool) (r : String) (rt : Nat) (res : String) :
    (outcomeUpdate s uw r rt res).ganadas = if res = "win" then s.ganadas + 1 else s.ganadas := by
  unfold outcomeUpdate; dsimp only; try split_ifs; all_goals rfl

@[simp] theorem outcome_perdidas (s : Stats) (uw : Bool) (r : String) (rt : Nat) (res : String) :
    (outcomeUpdate s uw r rt res).perdidas =
      if res = "win" then s.perdidas
      else if esDerrota res then s.perdidas + 1 else s.perdidas := by
  unfold outcomeUpdate; dsimp only; try split_ifs; all_goals rfl

@[simp] theorem outcome_tablas (s : Stats) (uw : Bool) (r : String) (rt : Nat) (res : String) :
    (outcomeUpdate s uw r rt res).tablas =
      if res = "win" then s.tablas
      else if esDerrota res then s.tablas else s.tablas + 1 := by
  unfold outcomeUpdate; dsimp only; try split_ifs; all_goals rfl

@[simp] theorem outcome_racha_actual (s : Stats) (uw : Bool) (r : String) (rt : Nat) (res : String) :
    (outcomeUpdate s uw r rt res).racha_actual =
      if res = "win" then (if s.racha_actual ≥ 0 then s.racha_actual + 1 else 1)
      else if esDerrota res then (if s.racha_actual ≤ 0 then s.racha_actual - 1 else -1)
      else 0 := by
  unfold outcomeUpdate; dsimp only; try split_ifs; all_goals rfl

@[simp] theorem outcome_racha_max_g (s : Stats) (uw : Bool) (r : String) (rt : Nat) (res : String) :
    (outcomeUpdate s uw r rt res).racha_max_g =
      if res = "win" then
        max s.racha_max_g (if s.racha_actual ≥ 0 then s.racha_actual + 1 else 1)
      else s.racha_max_g := by
  unfold outcomeUpdate; dsimp only; try split_ifs; all_goals rfl

@[simp] theorem outcome_racha_max_p (s : Stats) (uw : Bool) (r : String) (rt : Nat) (res : String) :
    (outcomeUpdate s uw r rt res).racha_max_p =
      if res = "win" then s.racha_max_p
      else if esDerrota res then
        min s.racha_max_p (if s.racha_actual ≤ 0 then s.racha_actual - 1 else -1)
      else s.racha_max_p := by
  unfold outcomeUpdate; dsimp only; try split_ifs; all_goals rfl

theorem outcome_sum (s : Stats) (uw : Bool) (r : String) (rt : Nat) (res : String) :
    (outcomeUpdate s uw r rt res).ganadas + (outcomeUpdate s uw r rt res).perdidas +
      (outcomeUpdate s uw r rt res).tablas = s.ganadas + s.perdidas + s.tablas + 1 := by
  unfold outcomeUpdate; dsimp only; split_ifs <;> dsimp only <;> omega

@[simp] theorem move_partida_corta (s : Stats) (raw : String) (moves : List String) (res : String) :
    (moveUpdate s raw moves res).partida_corta =
      if moves.length < s.partida_corta.2 then (raw, moves.length) else s.partida_corta := by
  unfold moveUpdate; dsimp only; try split_ifs; all_goals rfl

@[simp] theorem move_partida_larga (s : Stats) (raw : String) (moves : List String) (res : String) :
    (moveUpdate s raw moves res).partida_larga =
      if moves.length > s.partida_larga.2 then (raw, moves.length) else s.partida_larga := by
  unfold moveUpdate
  dsimp only
  split_ifs <;> simp_all

@[simp] theorem move_total_jugadas (s : Stats) (raw : String) (moves : List String) (res : String) :
    (moveUpdate s raw moves res).total_jugadas = s.total_jugadas + moves.length := by
  unfold moveUpdate; dsimp only; try split_ifs; all_goals rfl

@[simp] theorem move_aperturas (s : Stats) (raw : String) (moves : List String) (res : String) :
    (moveUpdate s raw moves res).aperturas =
      if aperturaKey moves ≠ "" then alIncr s.aperturas (aperturaKey moves) else s.aperturas := by
  unfold moveUpdate; dsimp only; try split_ifs; all_goals rfl

@[simp] theorem move_acr (s : Stats) (raw : String) (moves : List String) (res : String) :
    (moveUpdate s raw moves res).aperturas_con_resultados =
      if aperturaKey moves ≠ "" then
        acrIncr s.aperturas_con_resultados (aperturaKey moves) (res = "win")
      else s.aperturas_con_resultados := by
  unfold moveUpdate; dsimp only; try split_ifs; all_goals rfl

@[simp] theorem tail_time_controls (s : Stats) (tc : String) (et : Option Nat) (res : String) :
    (tailUpdate s tc et res).time_controls = alIncr s.time_controls tc := by
  unfold tailUpdate; dsimp only

@[simp] theorem tail_juegos_por_dia (s : Stats) (tc : String) (et : Option Nat) (res : String) :
    (tailUpdate s tc et res).juegos_por_dia =
      alIncr s.juegos_por_dia (diaSemana (et.getD 0)) := by
  unfold tailUpdate; dsimp only

@[simp] theorem tail_resultados_dia (s : Stats) (tc : String) (et : Option Nat) (res : String) :
    (tailUpdate s tc et res).resultados_dia =
      rdIncr s.resultados_dia (diaSemana (et.getD 0))
        (if res = "win" then "ganadas" else if esDerrota res then "perdidas" else "tablas") := by
  unfold tailUpdate; dsimp only

theorem procesar_skip (u : String) (f : Option String) (m : Nat) (s : Stats) (g : Game)
    (h : tcSkip f (tcLabel g) = true) : procesar u f m s g = s := by
  unfold procesar
  simp [h]

theorem procesar_rating_lt (u : String) (f : Option String) (m : Nat) (s : Stats) (g : Game)
    (h1 : tcSkip f (tcLabel g) = false) (h2 : ratingRival u g < m) :
    procesar u f m s g =
      if userIsWhite u g then {s with blancas_partidas := s.blancas_partidas + 1}
      else {s with negras_partidas := s.negras_partidas + 1} := by
  unfold procesar
  simp [h1, h2]

theorem procesar_partidas (u : String) (f : Option String) (m : Nat) (s : Stats) (g : Game)
    (h1 : tcSkip f (tcLabel g) = false) (h2 : ¬ ratingRival u g < m) :
    (procesar u f m s g).partidas_analizadas = s.partidas_analizadas + 1 := by
  unfold procesar
  simp only [h1, Bool.false_eq_true, if_false, h2]
  cases hp : g.pgn with
  | none => cases hw : userIsWhite u g <;> simp [hw]
  | some raw => cases hq : g.parse <;> cases hw : userIsWhite u g <;> simp [hw]

theorem procesar_rivales (u : String) (f : Option String) (m : Nat) (s : Stats) (g : Game)
    (h1 : tcSkip f (tcLabel g) = false) (h2 : ¬ ratingRival u g < m) :
    (procesar u f m s g).rivales = s.rivales ++ [rivalDe u g] := by
  unfold procesar
  simp only [h1, Bool.false_eq_true, if_false, h2]
  cases hp : g.pgn with
  | none => cases hw : userIsWhite u g <;> simp [hw]
  | some raw => cases hq : g.parse <;> cases hw : userIsWhite u g <;> simp [hw]

theorem procesar_ratings (u : String) (f : Option String) (m : Nat) (s : Stats) (g : Game)
    (h1 : tcSkip f (tcLabel g) = false) (h2 : ¬ ratingRival u g < m) :
    (procesar u f m s g).ratings_rivales = s.ratings_rivales ++ [ratingRival u g] := by
  unfold procesar
  simp only [h1, Bool.false_eq_true, if_false, h2]
  cases hp : g.pgn with
  | none => cases hw : userIsWhite u g <;> simp [hw]
  | some raw => cases hq : g.parse <;> cases hw : userIsWhite u g <;> simp [hw]

theorem procesar_sum (u : String) (f : Option String) (m : Nat) (s : Stats) (g : Game)
    (h1 : tcSkip f (tcLabel g) = false) (h2 : ¬ ratingRival u g < m) :
    (procesar u f m s g).ganadas + (procesar u f m s g).perdidas +
      (procesar u f m s g).tablas = s.ganadas + s.perdidas + s.tablas + 1 := by
  unfold procesar
  simp only [h1, Bool.false_eq_true, if_false, h2]
  cases hp : g.pgn with
  | none =>
      cases hw : userIsWhite u g <;> simp [hw] <;> split_ifs <;> omega
  | some raw =>
      cases hq : g.parse <;> cases hw : userIsWhite u g <;> simp [hw] <;>
        split_ifs <;> omega

theorem procesar_blancas (u : String) (f : Option String) (m : Nat) (s : Stats) (g : Game)
    (h1 : tcSkip f (tcLabel g) = false) :
    (procesar u f m s g).blancas_partidas =
      if userIsWhite u g then s.blancas_partidas + 1 else s.blancas_partidas := by
  unfold procesar
  simp only [h1, Bool.false_eq_true, if_false]
  by_cases h2 : ratingRival u g < m
  · simp only [h2, if_true]
    cases hw : userIsWhite u g <;> simp [hw]
  · simp only [h2, if_false]
    cases hp : g.pgn with
    | none => cases hw : userIsWhite u g <;> simp [hw]
    | some raw => cases hq : g.parse <;> cases hw : userIsWhite u g <;> simp [hw]

theorem procesar_negras (u : String) (f : Option String) (m : Nat) (s : Stats) (g : Game)
    (h1 : tcSkip f (tcLabel g) = false) :
    (procesar u f m s g).negras_partidas =
      if userIsWhite u g then s.negras_partidas else s.negras_partidas + 1 := by
  unfold procesar
  simp only [h1, Bool.false_eq_true, if_false]
  by_cases h2 : ratingRival u g < m
  · simp only [h2, if_true]
    cases hw : userIsWhite u g <;> simp [hw]
  · simp only [h2, if_false]
    cases hp : g.pgn with
    | none => cases hw : userIsWhite u g <;> simp [hw]
    | some raw => cases hq : g.parse <;> cases hw : userIsWhite u g <;> simp [hw]

theorem procesar_racha_actual (u : String) (f : Option String) (m : Nat) (s : Stats) (g : Game)
    (h1 : tcSkip f (tcLabel g) = false) (h2 : ¬ ratingRival u g < m) :
    (procesar u f m s g).racha_actual =
      if resultadoDe u g = "win" then (if s.racha_actual ≥ 0 then s.racha_actual + 1 else 1)
      else if esDerrota (resultadoDe u g) then
        (if s.racha_actual ≤ 0 then s.racha_actual - 1 else -1)
      else 0 := by
  unfold procesar
  simp only [h1, Bool.false_eq_true, if_false, h2]
  cases hp : g.pgn with
  | none => cases hw : userIsWhite u g <;> simp [hw]
  | some raw => cases hq : g.parse <;> cases hw : userIsWhite u g <;> simp [hw]

theorem procesar_racha_max_g (u : String) (f : Option String) (m : Nat) (s : Stats) (g : Game)
    (h1 : tcSkip f (tcLabel g) = false) (h2 : ¬ ratingRival u g < m) :
    (procesar u f m s g).racha_max_g =
      if resultadoDe u g = "win" then
        max s.racha_max_g (if s.racha_actual ≥ 0 then s.racha_actual + 1 else 1)
      else s.racha_max_g := by
  unfold procesar
  simp only [h1, Bool.false_eq_true, if_false, h2]
  cases hp : g.pgn with
  | none => cases hw : userIsWhite u g <;> simp [hw]
  | some raw => cases hq : g.parse <;> cases hw : userIsWhite u g <;> simp [hw]

theorem procesar_racha_max_p (u : String) (f : Option String) (m : Nat) (s : Stats) (g : Game)
    (h1 : tcSkip f (tcLabel g) = false) (h2 : ¬ ratingRival u g < m) :
    (procesar u f m s g).racha_max_p =
      if resultadoDe u g = "win" then s.racha_max_p
      else if esDerrota (resultadoDe u g) then
        min s.racha_max_p (if s.racha_actual ≤ 0 then s.racha_actual - 1 else -1)
      else s.racha_max_p := by
  unfold procesar
  simp only [h1, Bool.false_eq_true, if_false, h2]
  cases hp : g.pgn with
  | none => cases hw : userIsWhite u g <;> simp [hw]
  | some raw => cases hq : g.parse <;> cases hw : userIsWhite u g <;> simp [hw]

theorem procesar_err_fields (u : String) (f : Option String) (m : Nat) (s : Stats) (g : Game)
    (raw : String) (h1 : tcSkip f (tcLabel g) = false) (h2 : ¬ ratingRival u g < m)
    (h3 : g.pgn = some raw) (h4 : g.parse = PgnParse.err) :
    (procesar u f m s g).time_controls = s.time_controls ∧
    (procesar u f m s g).juegos_por_dia = s.juegos_por_dia ∧
    (procesar u f m s g).resultados_dia = s.resultados_dia ∧
    (procesar u f m s g).total_jugadas = s.total_jugadas ∧
    (procesar u f m s g).partida_corta = s.partida_corta ∧
    (procesar u f m s g).partida_larga = s.partida_larga ∧
    (procesar u f m s g).aperturas = s.aperturas ∧
    (procesar u f m s g).aperturas_con_resultados = s.aperturas_con_resultados := by
  unfold procesar
  simp only [h1, Bool.false_eq_true, if_false, h2, h3, h4]
  cases hw : userIsWhite u g <;> simp [hw]

theorem procesar_nogame_tail (u : String) (f : Option String) (m : Nat) (s : Stats) (g : Game)
    (raw : String) (h1 : tcSkip f (tcLabel g) = false) (h2 : ¬ ratingRival u g < m)
    (h3 : g.pgn = some raw) (h4 : g.parse = PgnParse.nogame) :
    (procesar u f m s g).time_controls = alIncr s.time_controls (tcLabel g) ∧
    (procesar u f m s g).juegos_por_dia =
      alIncr s.juegos_por_dia (diaSemana (g.end_time.getD 0)) ∧
    (procesar u f m s g).resultados_dia =
      rdIncr s.resultados_dia (diaSemana (g.end_time.getD 0))
        (if resultadoDe u g = "win" then "ganadas"
         else if esDerrota (resultadoDe u g) then "perdidas" else "tablas") ∧
    (procesar u f m s g).total_jugadas = s.total_jugadas ∧
    (procesar u f m s g).partida_corta = s.partida_corta ∧
    (procesar u f m s g).partida_larga = s.partida_larga ∧
    (procesar u f m s g).aperturas = s.aperturas ∧
    (procesar u f m s g).aperturas_con_resultados = s.aperturas_con_resultados := by
  unfold procesar
  simp only [h1, Bool.false_eq_true, if_false, h2, h3, h4]
  cases hw : userIsWhite u g <;> simp [hw]

theorem procesar_ok_fields (u : String) (f : Option String) (m : Nat) (s : Stats) (g : Game)
    (raw : String) (moves : List String)
    (h1 : tcSkip f (tcLabel g) = false) (h2 : ¬ ratingRival u g < m)
    (h3 : g.pgn = some raw) (h4 : g.parse = PgnParse.ok moves) :
    (procesar u f m s g).partida_corta =
      (if moves.length < s.partida_corta.2 then (raw, moves.length) else s.partida_corta) ∧
    (procesar u f m s g).partida_larga =
      (if moves.length > s.partida_larga.2 then (raw, moves.length) else s.partida_larga) ∧
    (procesar u f m s g).total_jugadas = s.total_jugadas + moves.length ∧
    (procesar u f m s g).aperturas =
      (if aperturaKey moves ≠ "" then alIncr s.aperturas (aperturaKey moves)
       else s.aperturas) ∧
    (procesar u f m s g).aperturas_con_resultados =
      (if aperturaKey moves ≠ "" then
        acrIncr s.aperturas_con_resultados (aperturaKey moves) (resultadoDe u g = "win")
       else s.aperturas_con_resultados) := by
  unfold procesar
  simp only [h1, Bool.false_eq_true, if_false, h2, h3, h4]
  cases hw : userIsWhite u g <;> simp [hw]

theorem procesar_inv_step (u : String) (f : Option String) (m : Nat) (s : Stats) (g : Game)
    (hA : s.ganadas + s.perdidas + s.tablas = s.partidas_analizadas)
    (hB : s.rivales.length = s.partidas_analizadas)
    (hC : s.ratings_rivales.length = s.partidas_analizadas) :
    (procesar u f m s g).ganadas + (procesar u f m s g).perdidas +
        (procesar u f m s g).tablas = (procesar u f m s g).partidas_analizadas ∧
      (procesar u f m s g).rivales.length = (procesar u f m s g).partidas_analizadas ∧
      (procesar u f m s g).ratings_rivales.length =
        (procesar u f m s g).partidas_analizadas := by
  by_cases hs : tcSkip f (tcLabel g) = true
  · rw [procesar_skip u f m s g hs]
    exact ⟨hA, hB, hC⟩
  · have h1 : tcSkip f (tcLabel g) = false := by simpa using hs
    by_cases h2 : ratingRival u g < m
    · rw [procesar_rating_lt u f m s g h1 h2]
      cases hw : userIsWhite u g <;> simp [hw] <;> exact ⟨hA, hB, hC⟩
    · refine ⟨?_, ?_, ?_⟩
      · rw [procesar_sum u f m s g h1 h2, procesar_partidas u f m s g h1 h2]
        omega
      · rw [procesar_rivales u f m s g h1 h2, procesar_partidas u f m s g h1 h2]
        simp [hB]
      · rw [procesar_ratings u f m s g h1 h2, procesar_partidas u f m s g h1 h2]
        simp [hC]

theorem foldl_inv (u : String) (f : Option String) (m : Nat) :
    ∀ (gs : List Game) (s : Stats),
      s.ganadas + s.perdidas + s.tablas = s.partidas_analizadas →
      s.rivales.length = s.partidas_analizadas →
      s.ratings_rivales.length = s.partidas_analizadas →
      (gs.foldl (procesar u f m) s).ganadas + (gs.foldl (procesar u f m) s).perdidas +
          (gs.foldl (procesar u f m) s).tablas =
          (gs.foldl (procesar u f m) s).partidas_analizadas ∧
        (gs.foldl (procesar u f m) s).rivales.length =
          (gs.foldl (procesar u f m) s).partidas_analizadas ∧
        (gs.foldl (procesar u f m) s).ratings_rivales.length =
          (gs.foldl (procesar u f m) s).partidas_analizadas := by
  intro gs
  induction gs with
  | nil => intro s hA hB hC; exact ⟨hA, hB, hC⟩
  | cons g gs ih =>
      intro s hA hB hC
      have h' := procesar_inv_step u f m s g hA hB hC
      simpa using ih (procesar u f m s g) h'.1 h'.2.1 h'.2.2

/-- C1: for every input game sequence, every time-control filter and
every minimum opponent rating, the snapshot built by the aggregation
pass satisfies `ganadas + perdidas + tablas = partidas_analizadas`, and
the opponent list `rivales` and rating list `ratings_rivales` each have
length `partidas_analizadas`. -/
theorem snapshot_sum_and_lengths (u : String) (f : Option String) (m : Nat)
    (gs : List Game) :
    (runAnalisis u f m gs).ganadas + (runAnalisis u f m gs).perdidas +
        (runAnalisis u f m gs).tablas = (runAnalisis u f m gs).partidas_analizadas ∧
      (runAnalisis u f m gs).rivales.length = (runAnalisis u f m gs).partidas_analizadas ∧
      (runAnalisis u f m gs).ratings_rivales.length =
        (runAnalisis u f m gs).partidas_analizadas := by
  unfold runAnalisis
  exact foldl_inv u f m gs initStats rfl rfl rfl

/-- C3: a game that passes the time-control filter but whose opponent
rating is strictly below `min_rating` yields exactly the per-color
games-played increment of lines 90-99 and nothing else: the returned
state is the input state with only `blancas_partidas` (resp.
`negras_partidas`) incremented. -/
theorem rating_filter_solo_color (u : String) (f : Option String) (m : Nat)
    (s : Stats) (g : Game)
    (h1 : tcSkip f (tcLabel g) = false) (h2 : ratingRival u g < m) :
    procesar u f m s g =
      if userIsWhite u g then {s with blancas_partidas := s.blancas_partidas + 1}
      else {s with negras_partidas := s.negras_partidas + 1} :=
  procesar_rating_lt u f m s g h1 h2

/-- Witness for C3: the user as white against a 1500-rated rival with
`min_rating = 2000`. -/
theorem rating_filter_solo_color_witness :
    procesar "user" none 2000 initStats c5g1 =
      (if userIsWhite "user" c5g1 then
        {initStats with blancas_partidas := initStats.blancas_partidas + 1}
       else {initStats with negras_partidas := initStats.negras_partidas + 1}) :=
  rating_filter_solo_color "user" none 2000 initStats c5g1 (by decide) (by decide)

/-- C10: when the tracked (lowercased) username matches neither side of
the game, the `else` branch of line 95 treats the tracked player as
black: the black games-played tally is incremented, opponent and
opponent rating come from the white side, and the result code comes
from the black side. -/
theorem usuario_ausente_como_negras (u : String) (f : Option String) (m : Nat)
    (s : Stats) (g : Game)
    (hw : pyLower g.white.username ≠ u) (_hb : pyLower g.black.username ≠ u)
    (h1 : tcSkip f (tcLabel g) = false) :
    userIsWhite u g = false ∧
      rivalDe u g = pyLower g.white.username ∧
      ratingRival u g = g.white.rating.getD 0 ∧
      resultadoDe u g = g.black.result ∧
      (procesar u f m s g).negras_partidas = s.negras_partidas + 1 ∧
      (procesar u f m s g).blancas_partidas = s.blancas_partidas := by
  have hfw : userIsWhite u g = false := by
    unfold userIsWhite
    simp [hw]
  refine ⟨hfw, ?_, ?_, ?_, ?_, ?_⟩
  · unfold rivalDe
    rw [hfw]
    simp
  · unfold ratingRival
    rw [hfw]
    simp
  · unfold resultadoDe
    rw [hfw]
    simp
  · rw [procesar_negras u f m s g h1, hfw]
    simp
  · rw [procesar_blancas u f m s g h1, hfw]
    simp

/-- Witness for C10: user "user" plays in a game between Alice and Bob. -/
theorem usuario_ausente_como_negras_witness :
    userIsWhite "user" gTer = false ∧
      rivalDe "user" gTer = pyLower gTer.white.username ∧
      ratingRival "user" gTer = gTer.white.rating.getD 0 ∧
      resultadoDe "user" gTer = gTer.black.result ∧
      (procesar "user" none 0 initStats gTer).negras_partidas =
        initStats.negras_partidas + 1 ∧
      (procesar "user" none 0 initStats gTer).blancas_partidas =
        initStats.blancas_partidas :=
  usuario_ausente_como_negras "user" none 0 initStats gTer (by decide) (by decide) (by decide)

theorem alGet_incr (l : List (String × Nat)) (k : String) :
    alGet (alIncr l k) k = alGet l k + 1 := by
  induction l with
  | nil => simp [alIncr, alGet]
  | cons p t ih =>
      obtain ⟨a, n⟩ := p
      by_cases h : a = k <;> simp [alIncr, alGet, h, ih]

theorem acrGet_incr (l : List (String × Nat × Nat)) (k : String) (w : Bool) :
    acrGet (acrIncr l k w) k =
      ((acrGet l k).1 + (if w then 1 else 0), (acrGet l k).2 + 1) := by
  induction l with
  | nil => simp [acrIncr, acrGet]
  | cons p t ih =>
      obtain ⟨a, gn, tn⟩ := p
      by_cases h : a = k <;> simp [acrIncr, acrGet, h, ih]

/-- C8: for a game passing both filters whose transcript parses, the
opening key is the space-joined first at-most-4 half-moves; when it is
non-empty its play count (`aperturas`) and its `total` slot are each
incremented by one, and its `ganadas` slot is incremented exactly when
the game's outcome is a Win. -/
theorem apertura_key_conteo (u : String) (f : Option String) (m : Nat) (s : Stats)
    (g : Game) (raw : String) (moves : List String)
    (h1 : tcSkip f (tcLabel g) = false) (h2 : ¬ ratingRival u g < m)
    (h3 : g.pgn = some raw) (h4 : g.parse = PgnParse.ok moves)
    (h5 : aperturaKey moves ≠ "") :
    aperturaKey moves = String.intercalate " " (moves.take 4) ∧
      (procesar u f m s g).aperturas = alIncr s.aperturas (aperturaKey moves) ∧
      alGet (procesar u f m s g).aperturas (aperturaKey moves) =
        alGet s.aperturas (aperturaKey moves) + 1 ∧
      (procesar u f m s g).aperturas_con_resultados =
        acrIncr s.aperturas_con_resultados (aperturaKey moves) (resultadoDe u g = "win") ∧
      acrGet (procesar u f m s g).aperturas_con_resultados (aperturaKey moves) =
        ((acrGet s.aperturas_con_resultados (aperturaKey moves)).1 +
            (if resultadoDe u g = "win" then 1 else 0),
          (acrGet s.aperturas_con_resultados (aperturaKey moves)).2 + 1) := by
  have hfields := procesar_ok_fields u f m s g raw moves h1 h2 h3 h4
  have hap : (procesar u f m s g).aperturas = alIncr s.aperturas (aperturaKey moves) := by
    rw [hfields.2.2.2.1]
    simp [h5]
  have hacr : (procesar u f m s g).aperturas_con_resultados =
      acrIncr s.aperturas_con_resultados (aperturaKey moves) (resultadoDe u g = "win") := by
    rw [hfields.2.2.2.2]
    simp [h5]
  refine ⟨rfl, hap, ?_, hacr, ?_⟩
  · rw [hap, alGet_incr]
  · rw [hacr, acrGet_incr]
    simp

/-- Witness for C8: the opening key "e4 e4 e4 e4" of the first scenario
game is counted once, as a win. -/
theorem apertura_key_conteo_witness :
    aperturaKey (List.replicate 20 "e4") =
        String.intercalate " " ((List.replicate 20 "e4").take 4) ∧
      (procesar "user" none 0 initStats c5g1).aperturas =
        alIncr initStats.aperturas (aperturaKey (List.replicate 20 "e4")) ∧
      alGet (procesar "user" none 0 initStats c5g1).aperturas
          (aperturaKey (List.replicate 20 "e4")) =
        alGet initStats.aperturas (aperturaKey (List.replicate 20 "e4")) + 1 ∧
      (procesar "user" none 0 initStats c5g1).aperturas_con_resultados =
        acrIncr initStats.aperturas_con_resultados (aperturaKey (List.replicate 20 "e4"))
          (resultadoDe "user" c5g1 = "win") ∧
      acrGet (procesar "user" none 0 initStats c5g1).aperturas_con_resultados
          (aperturaKey (List.replicate 20 "e4")) =
        ((acrGet initStats.aperturas_con_resultados (aperturaKey (List.replicate 20 "e4"))).1 +
            (if resultadoDe "user" c5g1 = "win" then 1 else 0),
          (acrGet initStats.aperturas_con_resultados
              (aperturaKey (List.replicate 20 "e4"))).2 + 1) :=
  apertura_key_conteo "user" none 0 initStats c5g1 "PGN1" (List.replicate 20 "e4")
    (by decide) (by decide) rfl rfl (by decide)

theorem tc_count_aux (u : String) :
    ∀ (gs : List Game) (s : Stats),
      (∀ g ∈ gs, tcLabel g = "600" ∨ tcLabel g = "180") →
      (gs.foldl (procesar u (some "600") 0) s).partidas_analizadas =
        s.partidas_analizadas + (gs.filter (fun g => tcLabel g == "600")).length := by
  intro gs
  induction gs with
  | nil => intro s _; simp
  | cons g gs ih =>
      intro s hall
      have htail : ∀ g' ∈ gs, tcLabel g' = "600" ∨ tcLabel g' = "180" := by
        intro g' hg'
        exact hall g' (by simp [hg'])
      rcases hall g (by simp) with h6 | h8
      · have h1 : tcSkip (some "600") (tcLabel g) = false := by simp [tcSkip, h6]
        have h2 : ¬ ratingRival u g < 0 := by omega
        simp only [List.foldl_cons, List.filter_cons]
        rw [ih (procesar u (some "600") 0 s g) htail,
          procesar_partidas u (some "600") 0 s g h1 h2]
        simp [h6]
        omega
      · have h1 : tcSkip (some "600") (tcLabel g) = true := by simp [tcSkip, h8]
        simp only [List.foldl_cons, List.filter_cons]
        rw [procesar_skip u (some "600") 0 s g h1, ih s htail]
        simp [h8]

/-- C7: (a) with a non-empty filter string, a game whose time-control
label differs from the filter is returned unchanged by the loop body —
it touches no counter, list or extremum; (b) hence with filter "600"
over games labelled only "600" or "180" (and `min_rating = 0`),
`partidas_analizadas` is exactly the number of "600" games. -/
theorem filtro_tc_salta_entero :
    (∀ (u : String) (f : String) (m : Nat) (s : Stats) (g : Game),
      f ≠ "" → tcLabel g ≠ f → procesar u (some f) m s g = s) ∧
    (∀ (u : String) (gs : List Game),
      (∀ g ∈ gs, tcLabel g = "600" ∨ tcLabel g = "180") →
      (runAnalisis u (some "600") 0 gs).partidas_analizadas =
        (gs.filter (fun g => tcLabel g == "600")).length) := by
  constructor
  · intro u f m s g hf htc
    exact procesar_skip u (some f) m s g (by simp [tcSkip, hf, htc])
  · intro u gs hall
    have h := tc_count_aux u gs initStats hall
    simpa [runAnalisis, initStats] using h

/-- Witness for C7: a "180" game is skipped entirely under filter "600",
and the two-game set {one "600" game, one "180" game} analyzes exactly
one game. -/
theorem filtro_tc_salta_entero_witness :
    procesar "user" (some "600") 0 initStats c5g3 = initStats ∧
    (runAnalisis "user" (some "600") 0 [c5g1, c5g3]).partidas_analizadas =
      ([c5g1, c5g3].filter (fun g => tcLabel g == "600")).length :=
  ⟨filtro_tc_salta_entero.1 "user" "600" 0 initStats c5g3 (by decide) (by decide),
   filtro_tc_salta_entero.2 "user" [c5g1, c5g3] (by decide)⟩

/-- Counterexample to C9 as stated: two parsed games of equal half-move
count 0 are both processed, the first is recorded as the shortest game,
but the longest-game slot keeps its initial sentinel `("", 0)` — the
first game never becomes the recorded longest game, because line 139
requires a strict `>` against the sentinel count 0. -/
theorem empate_cero_no_registrado :
    (runAnalisis "user" none 0 [gCero1, gCero2]).partidas_analizadas = 2 ∧
      (runAnalisis "user" none 0 [gCero1, gCero2]).partida_corta = ("A", 0) ∧
      (runAnalisis "user" none 0 [gCero1, gCero2]).partida_larga = ("", 0) := by
  decide

/-- C9 (amended): extremes are updated only under strict `<` / `>`
comparison of half-move counts, so for an input of two games that pass
both filters and parse with the same half-move count `n`, with
`0 < n < 9999` (so that the first game actually beats both initial
sentinels), the first-processed game remains recorded as both the
shortest and the longest game. -/
theorem empates_conservan_primera (u : String) (f : Option String) (m : Nat)
    (g1 g2 : Game) (raw1 raw2 : String) (mv1 mv2 : List String) (n : Nat)
    (ha1 : tcSkip f (tcLabel g1) = false) (ha2 : ¬ ratingRival u g1 < m)
    (hb1 : tcSkip f (tcLabel g2) = false) (hb2 : ¬ ratingRival u g2 < m)
    (hp1 : g1.pgn = some raw1) (hq1 : g1.parse = PgnParse.ok mv1)
    (hp2 : g2.pgn = some raw2) (hq2 : g2.parse = PgnParse.ok mv2)
    (hl1 : mv1.length = n) (hl2 : mv2.length = n)
    (hn0 : 0 < n) (hn9 : n < 9999) :
    (runAnalisis u f m [g1, g2]).partida_corta = (raw1, n) ∧
      (runAnalisis u f m [g1, g2]).partida_larga = (raw1, n) := by
  have e1 := procesar_ok_fields u f m initStats g1 raw1 mv1 ha1 ha2 hp1 hq1
  have hc1 : (procesar u f m initStats g1).partida_corta = (raw1, n) := by
    rw [e1.1, hl1]
    simp [initStats, hn9]
  have hg1 : (procesar u f m initStats g1).partida_larga = (raw1, n) := by
    rw [e1.2.1, hl1]
    simp [initStats, hn0]
  have e2 := procesar_ok_fields u f m (procesar u f m initStats g1) g2 raw2 mv2
    hb1 hb2 hp2 hq2
  have hrun : runAnalisis u f m [g1, g2] =
      procesar u f m (procesar u f m initStats g1) g2 := rfl
  constructor
  · rw [hrun, e2.1, hc1, hl2]
    simp
  · rw [hrun, e2.2.1, hg1, hl2]
    simp

/-- Witness for the amended C9: two 20-half-move games; the first stays
recorded as both extremes. -/
theorem empates_conservan_primera_witness :
    (runAnalisis "user" none 0 [c5g1, gTie2]).partida_corta = ("PGN1", 20) ∧
      (runAnalisis "user" none 0 [c5g1, gTie2]).partida_larga = ("PGN1", 20) :=
  empates_conservan_primera "user" none 0 c5g1 gTie2 "PGN1" "PGN1b"
    (List.replicate 20 "e4") (List.replicate 20 "f4") 20
    (by decide) (by decide) (by decide) (by decide) rfl rfl rfl rfl
    (by decide) (by decide) (by decide) (by decide)

/-- Counterexample to C2 as stated: `gErr` passes both filters and is
fully counted as an analyzed win, yet after the parser raises, the
`continue` of line 152 also skips lines 154-164, so its time-control
frequency counter, weekday game count and weekday outcome counter are
all left untouched (still empty), not incremented as the claim says. -/
theorem parse_error_salta_contadores :
    (procesar "user" none 0 initStats gErr).partidas_analizadas = 1 ∧
      (procesar "user" none 0 initStats gErr).ganadas = 1 ∧
      (procesar "user" none 0 initStats gErr).time_controls = [] ∧
      (procesar "user" none 0 initStats gErr).juegos_por_dia = [] ∧
      (procesar "user" none 0 initStats gErr).resultados_dia = [] := by
  decide

/-- C2 (amended): a transcript parse failure is non-fatal and per-game,
and every outcome-derived field still applies in both failure modes:
the game is counted in `partidas_analizadas`, adds exactly one to
`ganadas + perdidas + tablas`, appends its opponent to `rivales` and the
opponent's rating to `ratings_rivales`, and drives the streak fields
`racha_actual` / `racha_max_g` / `racha_max_p` by the same formulas as
for a parsed game.  But the two failure modes differ in scope: when
`chess.pgn.read_game` raises (`PgnParse.err`), the `continue` in the
`except` branch skips the time-control frequency counter, the weekday
game count and the weekday outcome counter along with the move-derived
fields (`total_jugadas`, extremes, openings).  Only when the parser
returns no game (`PgnParse.nogame`) are just the move-derived fields
skipped, with the time-control counter, the weekday game count and the
weekday outcome counter still incremented exactly as for a game whose
transcript parses. -/
theorem fallo_parse_alcance (u : String) (f : Option String) (m : Nat) (s : Stats)
    (g : Game) (raw : String)
    (h1 : tcSkip f (tcLabel g) = false) (h2 : ¬ ratingRival u g < m)
    (h3 : g.pgn = some raw) :
    (g.parse = PgnParse.err →
      (procesar u f m s g).partidas_analizadas = s.partidas_analizadas + 1 ∧
      (procesar u f m s g).ganadas + (procesar u f m s g).perdidas +
        (procesar u f m s g).tablas = s.ganadas + s.perdidas + s.tablas + 1 ∧
      (procesar u f m s g).rivales = s.rivales ++ [rivalDe u g] ∧
      (procesar u f m s g).ratings_rivales = s.ratings_rivales ++ [ratingRival u g] ∧
      (procesar u f m s g).racha_actual =
        (if resultadoDe u g = "win" then
          (if s.racha_actual ≥ 0 then s.racha_actual + 1 else 1)
         else if esDerrota (resultadoDe u g) then
          (if s.racha_actual ≤ 0 then s.racha_actual - 1 else -1)
         else 0) ∧
      (procesar u f m s g).racha_max_g =
        (if resultadoDe u g = "win" then
          max s.racha_max_g (if s.racha_actual ≥ 0 then s.racha_actual + 1 else 1)
         else s.racha_max_g) ∧
      (procesar u f m s g).racha_max_p =
        (if resultadoDe u g = "win" then s.racha_max_p
         else if esDerrota (resultadoDe u g) then
          min s.racha_max_p (if s.racha_actual ≤ 0 then s.racha_actual - 1 else -1)
         else s.racha_max_p) ∧
      (procesar u f m s g).total_jugadas = s.total_jugadas ∧
      (procesar u f m s g).partida_corta = s.partida_corta ∧
      (procesar u f m s g).partida_larga = s.partida_larga ∧
      (procesar u f m s g).aperturas = s.aperturas ∧
      (procesar u f m s g).aperturas_con_resultados = s.aperturas_con_resultados ∧
      (procesar u f m s g).time_controls = s.time_controls ∧
      (procesar u f m s g).juegos_por_dia = s.juegos_por_dia ∧
      (procesar u f m s g).resultados_dia = s.resultados_dia) ∧
    (g.parse = PgnParse.nogame →
      (procesar u f m s g).partidas_analizadas = s.partidas_analizadas + 1 ∧
      (procesar u f m s g).ganadas + (procesar u f m s g).perdidas +
        (procesar u f m s g).tablas = s.ganadas + s.perdidas + s.tablas + 1 ∧
      (procesar u f m s g).rivales = s.rivales ++ [rivalDe u g] ∧
      (procesar u f m s g).ratings_rivales = s.ratings_rivales ++ [ratingRival u g] ∧
      (procesar u f m s g).racha_actual =
        (if resultadoDe u g = "win" then
          (if s.racha_actual ≥ 0 then s.racha_actual + 1 else 1)
         else if esDerrota (resultadoDe u g) then
          (if s.racha_actual ≤ 0 then s.racha_actual - 1 else -1)
         else 0) ∧
      (procesar u f m s g).racha_max_g =
        (if resultadoDe u g = "win" then
          max s.racha_max_g (if s.racha_actual ≥ 0 then s.racha_actual + 1 else 1)
         else s.racha_max_g) ∧
      (procesar u f m s g).racha_max_p =
        (if resultadoDe u g = "win" then s.racha_max_p
         else if esDerrota (resultadoDe u g) then
          min s.racha_max_p (if s.racha_actual ≤ 0 then s.racha_actual - 1 else -1)
         else s.racha_max_p) ∧
      (procesar u f m s g).total_jugadas = s.total_jugadas ∧
      (procesar u f m s g).partida_corta = s.partida_corta ∧
      (procesar u f m s g).partida_larga = s.partida_larga ∧
      (procesar u f m s g).aperturas = s.aperturas ∧
      (procesar u f m s g).aperturas_con_resultados = s.aperturas_con_resultados ∧
      (procesar u f m s g).time_controls = alIncr s.time_controls (tcLabel g) ∧
      (procesar u f m s g).juegos_por_dia =
        alIncr s.juegos_por_dia (diaSemana (g.end_time.getD 0)) ∧
      (procesar u f m s g).resultados_dia =
        rdIncr s.resultados_dia (diaSemana (g.end_time.getD 0))
          (if resultadoDe u g = "win" then "ganadas"
           else if esDerrota (resultadoDe u g) then "perdidas" else "tablas")) := by
  constructor
  · intro h4
    have hf := procesar_err_fields u f m s g raw h1 h2 h3 h4
    exact ⟨procesar_partidas u f m s g h1 h2, procesar_sum u f m s g h1 h2,
      procesar_rivales u f m s g h1 h2, procesar_ratings u f m s g h1 h2,
      procesar_racha_actual u f m s g h1 h2, procesar_racha_max_g u f m s g h1 h2,
      procesar_racha_max_p u f m s g h1 h2,
      hf.2.2.2.1, hf.2.2.2.2.1, hf.2.2.2.2.2.1, hf.2.2.2.2.2.2.1,
      hf.2.2.2.2.2.2.2, hf.1, hf.2.1, hf.2.2.1⟩
  · intro h4
    have hf := procesar_nogame_tail u f m s g raw h1 h2 h3 h4
    exact ⟨procesar_partidas u f m s g h1 h2, procesar_sum u f m s g h1 h2,
      procesar_rivales u f m s g h1 h2, procesar_ratings u f m s g h1 h2,
      procesar_racha_actual u f m s g h1 h2, procesar_racha_max_g u f m s g h1 h2,
      procesar_racha_max_p u f m s g h1 h2,
      hf.2.2.2.1, hf.2.2.2.2.1, hf.2.2.2.2.2.1, hf.2.2.2.2.2.2.1,
      hf.2.2.2.2.2.2.2, hf.1, hf.2.1, hf.2.2.1⟩

/-- Witness for the amended C2: the raising game `gErr` (all outcome
fields applied, time-control and weekday counters untouched) and the
`None`-parsing game `gNog` (outcome fields applied, time-control and
weekday counters incremented), both processed from the initial state. -/
theorem fallo_parse_alcance_witness :
    ((procesar "user" none 0 initStats gErr).partidas_analizadas =
        initStats.partidas_analizadas + 1 ∧
      (procesar "user" none 0 initStats gErr).ganadas +
          (procesar "user" none 0 initStats gErr).perdidas +
          (procesar "user" none 0 initStats gErr).tablas =
        initStats.ganadas + initStats.perdidas + initStats.tablas + 1 ∧
      (procesar "user" none 0 initStats gErr).ratings_rivales =
        initStats.ratings_rivales ++ [ratingRival "user" gErr] ∧
      (procesar "user" none 0 initStats gErr).racha_actual =
        (if resultadoDe "user" gErr = "win" then
          (if initStats.racha_actual ≥ 0 then initStats.racha_actual + 1 else 1)
         else if esDerrota (resultadoDe "user" gErr) then
          (if initStats.racha_actual ≤ 0 then initStats.racha_actual - 1 else -1)
         else 0) ∧
      (procesar "user" none 0 initStats gErr).time_controls = initStats.time_controls ∧
      (procesar "user" none 0 initStats gErr).juegos_por_dia = initStats.juegos_por_dia ∧
      (procesar "user" none 0 initStats gErr).resultados_dia = initStats.resultados_dia) ∧
    ((procesar "user" none 0 initStats gNog).partidas_analizadas =
        initStats.partidas_analizadas + 1 ∧
      (procesar "user" none 0 initStats gNog).partida_larga = initStats.partida_larga ∧
      (procesar "user" none 0 initStats gNog).aperturas_con_resultados =
        initStats.aperturas_con_resultados ∧
      (procesar "user" none 0 initStats gNog).time_controls =
        alIncr initStats.time_controls (tcLabel gNog) ∧
      (procesar "user" none 0 initStats gNog).juegos_por_dia =
        alIncr initStats.juegos_por_dia (diaSemana (gNog.end_time.getD 0)) ∧
      (procesar "user" none 0 initStats gNog).resultados_dia =
        rdIncr initStats.resultados_dia (diaSemana (gNog.end_time.getD 0))
          (if resultadoDe "user" gNog = "win" then "ganadas"
           else if esDerrota (resultadoDe "user" gNog) then "perdidas" else "tablas")) := by
  have he := (fallo_parse_alcance "user" none 0 initStats gErr "1. e4 ??"
    (by decide) (by decide) rfl).1 rfl
  have hn := (fallo_parse_alcance "user" none 0 initStats gNog ""
    (by decide) (by decide) rfl).2 rfl
  refine ⟨⟨he.1, he.2.1, he.2.2.2.1, he.2.2.2.2.1, ?_, ?_, ?_⟩,
    ⟨hn.1, ?_, ?_, ?_, ?_, ?_⟩⟩
  · exact he.2.2.2.2.2.2.2.2.2.2.2.2.1
  · exact he.2.2.2.2.2.2.2.2.2.2.2.2.2.1
  · exact he.2.2.2.2.2.2.2.2.2.2.2.2.2.2
  · exact hn.2.2.2.2.2.2.2.2.2.1
  · exact hn.2.2.2.2.2.2.2.2.2.2.2.1
  · exact hn.2.2.2.2.2.2.2.2.2.2.2.2.1
  · exact hn.2.2.2.2.2.2.2.2.2.2.2.2.2.1
  · exact hn.2.2.2.2.2.2.2.2.2.2.2.2.2.2

/-- Counterexample to C6 as stated: on an empty game sequence and a
fresh instance, `analizar_partidas` returns at the early guard of lines
55-57 before the stats dictionary of lines 61-80 is ever built, so the
stats container stays empty (`none`) — no snapshot with
`games_analyzed = 0` is produced. -/
theorem vacio_sin_snapshot : analizarPartidas "user" none 0 [] none = none := rfl

/-- C6 (amended): running the aggregation on an empty game sequence is
not an error: the engine returns immediately leaving the stats container
unchanged (empty on a fresh instance, where no snapshot is built), and
the report generator's guard of lines 172-175 rejects the empty
container exactly as it rejects `partidas_analizadas = 0`, so no rate is
derived downstream. -/
theorem vacio_no_es_error (u : String) (f : Option String) (m : Nat)
    (prev : Option Stats) :
    analizarPartidas u f m [] prev = prev ∧
      reporteDisponible (analizarPartidas u f m [] none) = false ∧
      (∀ st : Stats, st.partidas_analizadas = 0 → reporteDisponible (some st) = false) := by
  refine ⟨rfl, rfl, ?_⟩
  intro st h
  simp [reporteDisponible, h]

/-- C5: the three-game end-to-end scenario (user beats rival1 (1500) in
20 half-moves at "600"; loses to rival2 (1600) in 30 half-moves at
"600"; draws rival3 (1400) by "agreed" in 40 half-moves at "180"),
aggregated with no time-control filter and `min_rating = 0`, yields
exactly the expected snapshot: 1/1/1 outcomes over 3 analyzed games,
global win rate 33, streak extremes 1 and -1, best win (rival1, 1500),
worst loss (rival2, 1600), shortest 20 and longest 40 half-moves,
time-control counts {"600": 2, "180": 1} and draw subtypes
{"agreed": 1}. -/
theorem escenario_tres_partidas :
    (runAnalisis "user" none 0 [c5g1, c5g2, c5g3]).ganadas = 1 ∧
      (runAnalisis "user" none 0 [c5g1, c5g2, c5g3]).perdidas = 1 ∧
      (runAnalisis "user" none 0 [c5g1, c5g2, c5g3]).tablas = 1 ∧
      (runAnalisis "user" none 0 [c5g1, c5g2, c5g3]).partidas_analizadas = 3 ∧
      winrateGlobal (runAnalisis "user" none 0 [c5g1, c5g2, c5g3]) = 33 ∧
      (runAnalisis "user" none 0 [c5g1, c5g2, c5g3]).racha_max_g = 1 ∧
      (runAnalisis "user" none 0 [c5g1, c5g2, c5g3]).racha_max_p = -1 ∧
      (runAnalisis "user" none 0 [c5g1, c5g2, c5g3]).mejor_victoria = ("rival1", 1500) ∧
      (runAnalisis "user" none 0 [c5g1, c5g2, c5g3]).peor_derrota = ("rival2", 1600) ∧
      (runAnalisis "user" none 0 [c5g1, c5g2, c5g3]).partida_corta.2 = 20 ∧
      (runAnalisis "user" none 0 [c5g1, c5g2, c5g3]).partida_larga.2 = 40 ∧
      (runAnalisis "user" none 0 [c5g1, c5g2, c5g3]).time_controls =
        [("600", 2), ("180", 1)] ∧
      (runAnalisis "user" none 0 [c5g1, c5g2, c5g3]).tablas_por_tipo = [("agreed", 1)] := by
  decide

theorem procesar_racha_step (u : String) (f : Option String) (m : Nat) (s : Stats)
    (g : Game)
    (hg1 : s.racha_actual ≤ s.racha_max_g) (hg0 : 0 ≤ s.racha_max_g)
    (hp1 : s.racha_max_p ≤ s.racha_actual) (hp0 : s.racha_max_p ≤ 0) :
    (procesar u f m s g).racha_max_g =
        max s.racha_max_g (procesar u f m s g).racha_actual ∧
      (procesar u f m s g).racha_max_p =
        min s.racha_max_p (procesar u f m s g).racha_actual ∧
      (procesar u f m s g).racha_actual ≤ (procesar u f m s g).racha_max_g ∧
      0 ≤ (procesar u f m s g).racha_max_g ∧
      (procesar u f m s g).racha_max_p ≤ (procesar u f m s g).racha_actual ∧
      (procesar u f m s g).racha_max_p ≤ 0 := by
  by_cases hs : tcSkip f (tcLabel g) = true
  · rw [procesar_skip u f m s g hs]
    omega
  · have h1 : tcSkip f (tcLabel g) = false := by simpa using hs
    by_cases h2 : ratingRival u g < m
    · rw [procesar_rating_lt u f m s g h1 h2]
      cases hw : userIsWhite u g <;> simp <;> omega
    · rw [procesar_racha_actual u f m s g h1 h2, procesar_racha_max_g u f m s g h1 h2,
        procesar_racha_max_p u f m s g h1 h2]
      split_ifs <;> omega

theorem racha_trace (u : String) (f : Option String) (m : Nat) :
    ∀ (gs : List Game) (s : Stats),
      s.racha_actual ≤ s.racha_max_g → 0 ≤ s.racha_max_g →
      s.racha_max_p ≤ s.racha_actual → s.racha_max_p ≤ 0 →
      (gs.foldl (procesar u f m) s).racha_max_g =
          (rachaList u f m gs s).foldl max s.racha_max_g ∧
        (gs.foldl (procesar u f m) s).racha_max_p =
          (rachaList u f m gs s).foldl min s.racha_max_p := by
  intro gs
  induction gs with
  | nil => intro s _ _ _ _; simp [rachaList]
  | cons g gs ih =>
      intro s h1 h2 h3 h4
      have hst := procesar_racha_step u f m s g h1 h2 h3 h4
      have hih := ih (procesar u f m s g) hst.2.2.1 hst.2.2.2.1 hst.2.2.2.2.1 hst.2.2.2.2.2
      simp only [List.foldl_cons, rachaList]
      constructor
      · rw [hih.1, hst.1]
      · rw [hih.2, hst.2.1]

/-- C4: (a) after processing any game that passes both filters, the
current streak is at least 1 on a Win result code, at most -1 on a Loss
result code, and exactly 0 on a Draw; (b) over any full run,
`racha_max_g` equals the fold of `max` over all current-streak values
taken during the run (starting from the initial streak value 0), and
`racha_max_p` likewise equals the fold of `min` — i.e. the largest and
smallest current-streak values seen. -/
theorem racha_invariantes :
    (∀ (u : String) (f : Option String) (m : Nat) (s : Stats) (g : Game),
      tcSkip f (tcLabel g) = false → ¬ ratingRival u g < m →
      ((resultadoDe u g = "win" → 1 ≤ (procesar u f m s g).racha_actual) ∧
       (esDerrota (resultadoDe u g) = true → (procesar u f m s g).racha_actual ≤ -1) ∧
       (resultadoDe u g ≠ "win" → esDerrota (resultadoDe u g) = false →
         (procesar u f m s g).racha_actual = 0))) ∧
    (∀ (u : String) (f : Option String) (m : Nat) (gs : List Game),
      (runAnalisis u f m gs).racha_max_g =
          (rachaList u f m gs initStats).foldl max 0 ∧
        (runAnalisis u f m gs).racha_max_p =
          (rachaList u f m gs initStats).foldl min 0) := by
  constructor
  · intro u f m s g h1 h2
    refine ⟨?_, ?_, ?_⟩
    · intro hwin
      rw [procesar_racha_actual u f m s g h1 h2]
      simp only [hwin, if_true]
      split_ifs <;> omega
    · intro hder
      have hnw : resultadoDe u g ≠ "win" := by
        intro hw
        rw [hw] at hder
        exact absurd hder (by decide)
      rw [procesar_racha_actual u f m s g h1 h2]
      simp only [hnw, hder, if_false, if_true]
      split_ifs <;> omega
    · intro hnw hnd
      rw [procesar_racha_actual u f m s g h1 h2]
      simp [hnw, hnd]
  · intro u f m gs
    have h := racha_trace u f m gs initStats (by decide) (by decide) (by decide) (by decide)
    simpa [runAnalisis, initStats] using h

/-- Witness for C4: the first scenario game is a win and yields streak
1; the streak extremes of the full scenario match the max/min folds of
the streak trace. -/
theorem racha_invariantes_witness :
    1 ≤ (procesar "user" none 0 initStats c5g1).racha_actual ∧
      ((runAnalisis "user" none 0 [c5g1, c5g2, c5g3]).racha_max_g =
          (rachaList "user" none 0 [c5g1, c5g2, c5g3] initStats).foldl max 0 ∧
        (runAnalisis "user" none 0 [c5g1, c5g2, c5g3]).racha_max_p =
          (rachaList "user" none 0 [c5g1, c5g2, c5g3] initStats).foldl min 0) :=
  ⟨(racha_invariantes.1 "user" none 0 initStats c5g1 (by decide) (by decide)).1 (by decide),
   racha_invariantes.2 "user" none 0 [c5g1, c5g2, c5g3]⟩

/-- Witness for the amended C6: empty input with a previous state, the
empty container rejected by the report guard, and the zero-snapshot
state rejected by the same guard. -/
theorem vacio_no_es_error_witness :
    analizarPartidas "user" none 0 [] (some initStats) = some initStats ∧
      reporteDisponible (analizarPartidas "user" none 0 [] none) = false ∧
      reporteDisponible (some initStats) = false :=
  ⟨(vacio_no_es_error "user" none 0 (some initStats)).1,
   (vacio_no_es_error "user" none 0 (some initStats)).2.1,
   (vacio_no_es_error "user" none 0 (some initStats)).2.2 initStats rfl⟩
